import Mathlib

/-!
Verification of the ha-intercom firmware core (src/firmware/main) against its
natural-language specification.

The C sources are shallowly embedded: each global-state cluster becomes a Lean
structure, each C function a pure Lean function on that structure.  Machine
integers are modelled as Nat/Int with explicit reductions modulo 2^32 where the
C code relies on uint32 wraparound.  External library calls (Opus decode, I2S
writes, FreeRTOS queue primitives) are modelled by their documented effect on
the embedded state; the calls the play task issues are recorded in an explicit
effect list so that claims about "decode happened / nothing was written" can be
stated.
-/

/- ===================== protocol.h constants ===================== -/

/-- protocol.h: HEADER_LENGTH = DEVICE_ID_LENGTH + SEQUENCE_LENGTH + PRIORITY_LENGTH = 13. -/
def HEADER_LENGTH : Nat := 13

/-- protocol.h: MAX_PACKET_SIZE = 256. -/
def MAX_PACKET_SIZE : Nat := 256

/-- main.c: RX_QUEUE_DEPTH = 15. -/
def RX_QUEUE_DEPTH : Nat := 15

/-- Modulus of a C uint32_t. -/
def UINT32_MOD : Nat := 2 ^ 32

/-- An audio-plane packet as seen by main.c after the 13-byte header parse.
The 8-byte device_id array (compared bytewise with memcmp) is abstracted to a
single Nat identity; sequence is the host-order uint32 obtained by ntohl;
priority is the raw uint8 byte; opus_len is the payload length in bytes
(total_len - HEADER_LENGTH). -/
structure AudioPacket where
  device_id : Nat
  sequence : Nat
  priority : Nat
  opus_len : Nat
deriving DecidableEq, Repr

/-- main.c (on_audio_received / process_rx_packet): a priority byte greater
than 2 (PRIORITY_EMERGENCY) is clamped to 0 (PRIORITY_NORMAL). -/
def clampPriority (p : Nat) : Nat := if p > 2 then 0 else p

/- ===================== audio_output.c : emergency override ===================== -/

/-- State of audio_output.c relevant to volume, mute and the emergency
override: current_volume, is_muted, emergency_override_active,
pre_emergency_volume, pre_emergency_muted. -/
structure OutputState where
  current_volume : Nat
  is_muted : Bool
  emergency_override_active : Bool
  pre_emergency_volume : Nat
  pre_emergency_muted : Bool
deriving DecidableEq, Repr

/-- audio_output.c audio_output_force_unmute_max_volume: when an override is
already active, return immediately (no nesting); otherwise save the current
volume/mute pair, mark the override active and force volume 100, unmuted. -/
def audio_output_force_unmute_max_volume (s : OutputState) : OutputState :=
  if s.emergency_override_active then s
  else
    { current_volume := 100
      is_muted := false
      emergency_override_active := true
      pre_emergency_volume := s.current_volume
      pre_emergency_muted := s.is_muted }

/-- audio_output.c audio_output_restore_volume: when no override is active,
return immediately; otherwise restore the saved volume/mute pair and clear the
override flag.  The saved pair fields keep their values (they are only
meaningful while the override is active). -/
def audio_output_restore_volume (s : OutputState) : OutputState :=
  if !s.emergency_override_active then s
  else
    { s with
      current_volume := s.pre_emergency_volume
      is_muted := s.pre_emergency_muted
      emergency_override_active := false }

/-- C5: the emergency override obeys save-once/restore-once semantics.
Starting from a state with no active override: the first force saves the
current volume/mute pair and sets volume 100 / unmuted; a second force while
active is a no-op (first save wins); restore with no active override is a
no-op; restore of an active override puts volume and mute back to exactly the
saved pre-override values and deactivates the override. -/
theorem emergency_override_save_restore (s : OutputState)
    (h : s.emergency_override_active = false) :
    (audio_output_force_unmute_max_volume s).current_volume = 100 ∧
    (audio_output_force_unmute_max_volume s).is_muted = false ∧
    (audio_output_force_unmute_max_volume s).emergency_override_active = true ∧
    (audio_output_force_unmute_max_volume s).pre_emergency_volume = s.current_volume ∧
    (audio_output_force_unmute_max_volume s).pre_emergency_muted = s.is_muted ∧
    audio_output_force_unmute_max_volume (audio_output_force_unmute_max_volume s) =
      audio_output_force_unmute_max_volume s ∧
    audio_output_restore_volume s = s ∧
    (audio_output_restore_volume (audio_output_force_unmute_max_volume s)).current_volume =
      s.current_volume ∧
    (audio_output_restore_volume (audio_output_force_unmute_max_volume s)).is_muted =
      s.is_muted ∧
    (audio_output_restore_volume
        (audio_output_force_unmute_max_volume s)).emergency_override_active = false := by
  simp [audio_output_force_unmute_max_volume, audio_output_restore_volume, h]

/-- C5 witness: the save/restore behaviour evaluated at the concrete state
volume 30, muted, no override active. -/
theorem emergency_override_save_restore_witness :
    (audio_output_force_unmute_max_volume ⟨30, true, false, 100, false⟩).current_volume = 100 ∧
    (audio_output_force_unmute_max_volume ⟨30, true, false, 100, false⟩).is_muted = false ∧
    (audio_output_force_unmute_max_volume
        ⟨30, true, false, 100, false⟩).emergency_override_active = true ∧
    (audio_output_force_unmute_max_volume ⟨30, true, false, 100, false⟩).pre_emergency_volume = 30 ∧
    (audio_output_force_unmute_max_volume ⟨30, true, false, 100, false⟩).pre_emergency_muted = true ∧
    audio_output_force_unmute_max_volume
        (audio_output_force_unmute_max_volume ⟨30, true, false, 100, false⟩) =
      audio_output_force_unmute_max_volume ⟨30, true, false, 100, false⟩ ∧
    audio_output_restore_volume ⟨30, true, false, 100, false⟩ = ⟨30, true, false, 100, false⟩ ∧
    (audio_output_restore_volume
        (audio_output_force_unmute_max_volume ⟨30, true, false, 100, false⟩)).current_volume = 30 ∧
    (audio_output_restore_volume
        (audio_output_force_unmute_max_volume ⟨30, true, false, 100, false⟩)).is_muted = true ∧
    (audio_output_restore_volume
        (audio_output_force_unmute_max_volume
          ⟨30, true, false, 100, false⟩)).emergency_override_active = false :=
  emergency_override_save_restore ⟨30, true, false, 100, false⟩ rfl

/- ===================== main.c : on_audio_received (network RX task) ===================== -/

/-- Settings snapshot and node identity observed by the RX callback: the local
DeviceId, the transmitting flag, and settings_get()->dnd_enabled. -/
structure RxEnv where
  localId : Nat
  transmitting : Bool
  dnd_enabled : Bool
deriving DecidableEq, Repr

/-- State touched by on_audio_received: the RxQueue contents (bounded FIFO of
RX_QUEUE_DEPTH raw packets), the rx_drop_total counter and rx_packet_count. -/
structure RxTaskState where
  rx_queue : List AudioPacket
  rx_drop_total : Nat
  rx_packet_count : Nat
deriving DecidableEq, Repr

/-- The lightweight filter of the network RX task, as read off the three
rejection checks in on_audio_received: not our own packet, not transmitting,
and not blocked by DND (DND enabled and clamped priority below
PRIORITY_EMERGENCY). -/
def RxFilterPass (env : RxEnv) (p : AudioPacket) : Prop :=
  p.device_id ≠ env.localId ∧ env.transmitting = false ∧
    ¬(env.dnd_enabled = true ∧ clampPriority p.priority < 2)

instance (env : RxEnv) (p : AudioPacket) : Decidable (RxFilterPass env p) := by
  unfold RxFilterPass; infer_instance

/-- main.c on_audio_received: count the packet, then reject own packets,
reject while transmitting, reject when DND is on and the clamped priority is
below PRIORITY_EMERGENCY; otherwise try_send the packet onto the RxQueue
(non-blocking xQueueSend: fails exactly when the queue already holds
RX_QUEUE_DEPTH items, in which case rx_drop_total is bumped). -/
def on_audio_received (env : RxEnv) (p : AudioPacket) (s : RxTaskState) : RxTaskState :=
  let s := { s with rx_packet_count := s.rx_packet_count + 1 }
  if p.device_id = env.localId then s
  else if env.transmitting then s
  else if env.dnd_enabled ∧ clampPriority p.priority < 2 then s
  else if s.rx_queue.length < RX_QUEUE_DEPTH then
    { s with rx_queue := s.rx_queue ++ [p] }
  else
    { s with rx_drop_total := s.rx_drop_total + 1 }

/-- C6 counterexample: with the RxQueue already holding RX_QUEUE_DEPTH = 15
packets, a datagram that passes the lightweight filter (foreign sender, not
transmitting, DND off) is NOT enqueued — the queue is left unchanged and the
drop counter is bumped — refuting the claimed "enqueued if and only if it
passes the lightweight filter". -/
theorem rx_enqueue_iff_filter_counterexample :
    RxFilterPass ⟨0, false, false⟩ ⟨1, 0, 0, 50⟩ ∧
    (on_audio_received ⟨0, false, false⟩ ⟨1, 0, 0, 50⟩
        ⟨List.replicate 15 ⟨2, 0, 0, 50⟩, 0, 0⟩).rx_queue =
      List.replicate 15 ⟨2, 0, 0, 50⟩ ∧
    (on_audio_received ⟨0, false, false⟩ ⟨1, 0, 0, 50⟩
        ⟨List.replicate 15 ⟨2, 0, 0, 50⟩, 0, 0⟩).rx_drop_total = 1 := by
  refine ⟨by decide, ?_, ?_⟩ <;> rfl

/-- C6 amended: a received datagram is appended to the RxQueue if and only if
it passes the lightweight filter (not self, not transmitting, not blocked by
DND on the clamped priority) AND the queue holds fewer than RX_QUEUE_DEPTH
items; otherwise the queue is unchanged. -/
theorem rx_enqueue_iff_filter_and_space (env : RxEnv) (p : AudioPacket) (s : RxTaskState) :
    (on_audio_received env p s).rx_queue = s.rx_queue ++ [p] ↔
      (RxFilterPass env p ∧ s.rx_queue.length < RX_QUEUE_DEPTH) := by
  have hne : ¬ (s.rx_queue = s.rx_queue ++ [p]) := by
    intro h
    have := congrArg List.length h
    simp at this
  unfold on_audio_received RxFilterPass
  split_ifs with h1 h2 h3 _h4 <;> simp_all
  split_ifs with h5 <;> simp_all


/- ===================== main.c : process_rx_packet (audio play task) ===================== -/

/-- Calls issued by process_rx_packet to the sink, the decoder, the output
override and the queue, in program order.  flushQueue (xQueueReset on the
RxQueue) is issued elsewhere in main.c (PTT preemption in on_button_event and
play_fallback_beep) but is listed here so that its absence from the play
task's packet processing can be stated. -/
inductive RxEffect where
  | sinkStop
  | sinkStart
  | restoreOverride
  | forceOverride
  | resetDecoder
  | flushQueue
  | decodeFec
  | decodePlc
  | decodeNormal
  | sinkWrite
deriving DecidableEq, Repr

/-- Play-task channel state: the first-to-talk / preemption fields of main.c
(has_current_sender, current_sender, current_rx_priority, sequence_initialized,
last_sequence, audio_playing) plus the emergency-override flag of
audio_output.c as observed through audio_output_is_emergency_override(). -/
structure PlayState where
  has_current_sender : Bool
  current_sender : Nat
  current_rx_priority : Nat
  sequence_initialized : Bool
  last_sequence : Nat
  audio_playing : Bool
  emergency_override : Bool
deriving DecidableEq, Repr

/-- Value of a C uint32 expression reduced to [0, 2^32). -/
def u32 (n : Nat) : Nat := n % UINT32_MOD

/-- Reinterpret a uint32 value as a C int32_t (two's complement). -/
def toInt32 (n : Nat) : Int :=
  if n % UINT32_MOD < 2 ^ 31 then (n % UINT32_MOD : Int)
  else (n % UINT32_MOD : Int) - (UINT32_MOD : Int)

/-- main.c line 329: int32_t gap = (int32_t)(seq - last_sequence - 1), with
the subtraction performed in uint32 arithmetic.  Both arguments are reduced
mod 2^32 first; 2^33 is added to keep the Nat subtraction from underflowing
(it vanishes under the final reduction mod 2^32). -/
def seqGap (seq last : Nat) : Int :=
  toInt32 (seq % UINT32_MOD + 2 ^ 33 - last % UINT32_MOD - 1)

/-- The first-to-talk block of process_rx_packet, reached when the packet was
not discarded: an existing same-sender stream continues unchanged; a
different sender (necessarily of strictly higher clamped priority) preempts —
stop playback if active, restore an active override, adopt the new sender and
its clamped priority, reset the decoder; with no current sender the packet's
sender acquires the channel and the decoder is reset. -/
def preempt_or_acquire (p : AudioPacket) (s : PlayState) : PlayState × List RxEffect :=
  if s.has_current_sender then
    if p.device_id = s.current_sender then (s, [])
    else
      ({ s with
          audio_playing := false
          emergency_override := false
          current_sender := p.device_id
          current_rx_priority := clampPriority p.priority
          sequence_initialized := false },
        (if s.audio_playing then [RxEffect.sinkStop] else []) ++
        (if s.emergency_override then [RxEffect.restoreOverride] else []) ++
        [RxEffect.resetDecoder])
  else
    ({ s with
        current_sender := p.device_id
        current_rx_priority := clampPriority p.priority
        has_current_sender := true
        sequence_initialized := false },
      [RxEffect.resetDecoder])

/-- main.c lines 286-290: on the first packet of an emergency stream (clamped
priority 2 while the sink is not playing) audio_output_force_unmute_max_volume
is called; the override flag observed afterwards is true. -/
def emergency_step (incoming : Nat) (se : PlayState × List RxEffect) :
    PlayState × List RxEffect :=
  if incoming = 2 ∧ se.1.audio_playing = false then
    ({ se.1 with emergency_override := true }, se.2 ++ [RxEffect.forceOverride])
  else se

/-- main.c lines 315-323: start the sink when not already playing and the
frame is not a silence frame. -/
def sink_start_step (is_sil : Bool) (se : PlayState × List RxEffect) :
    PlayState × List RxEffect :=
  if se.1.audio_playing = false ∧ is_sil = false then
    ({ se.1 with audio_playing := true }, se.2 ++ [RxEffect.sinkStart])
  else se

/-- main.c lines 328-351: PLC/FEC concealment calls made before decoding the
current packet, as a function of the int32 gap.  Gap 1: one decode_fec call
(its output written to the sink when the decode yields samples).  Gap in
(1,4]: gap decode_plc calls, each written out.  Any other gap: no concealment
calls. -/
def conceal_effects (decode_ok : Bool) (gap : Int) : List RxEffect :=
  if 0 < gap ∧ gap ≤ 4 then
    if gap = 1 then
      [RxEffect.decodeFec] ++ (if decode_ok then [RxEffect.sinkWrite] else [])
    else
      List.flatten (List.replicate gap.toNat
        ([RxEffect.decodePlc] ++ (if decode_ok then [RxEffect.sinkWrite] else [])))
  else []

/-- main.c process_rx_packet.  External calls are recorded as RxEffect values
in program order.  The Opus decode results (codec_decode / codec_decode_fec /
codec_decode_plc returning a positive sample count) are parametrized by
decode_ok; the I2S write is modelled as accepting the samples (the
driver-failure restart path at the end of the C function is not entered).
Timestamps (last_audio_rx_time) and LED/display/MQTT updates are not
modelled. -/
def process_rx_packet (decode_ok : Bool) (p : AudioPacket) (s : PlayState) :
    PlayState × List RxEffect :=
  -- first-to-talk: a different sender of same or lower clamped priority is
  -- discarded outright
  if s.has_current_sender = true ∧ p.device_id ≠ s.current_sender ∧
      ¬(clampPriority p.priority > s.current_rx_priority) then
    (s, [])
  else
    let se2 := emergency_step (clampPriority p.priority) (preempt_or_acquire p s)
    -- opus_len sanity check
    if p.opus_len = 0 ∨ p.opus_len > MAX_PACKET_SIZE - HEADER_LENGTH then se2
    -- silence from unknown sender: don't acquire channel
    else if p.opus_len < 10 ∧ se2.1.has_current_sender = false then se2
    -- silence from a different sender: don't accept
    else if p.opus_len < 10 ∧ se2.1.has_current_sender = true ∧
        p.device_id ≠ se2.1.current_sender then se2
    else
      -- last_audio_rx_time is updated here (wall time is not modelled)
      let se3 := sink_start_step (decide (p.opus_len < 10)) se2
      let seq := u32 p.sequence
      ({ se3.1 with last_sequence := seq, sequence_initialized := true },
        se3.2 ++
        (if se3.1.sequence_initialized = true then
          conceal_effects decode_ok (seqGap seq se3.1.last_sequence)
        else []) ++
        [RxEffect.decodeNormal] ++ (if decode_ok then [RxEffect.sinkWrite] else []))

/- Stage lemmas used by the claim theorems below. -/

theorem preempt_or_acquire_same (p : AudioPacket) (s : PlayState)
    (hs : s.has_current_sender = true) (hsame : p.device_id = s.current_sender) :
    preempt_or_acquire p s = (s, []) := by
  simp [preempt_or_acquire, hs, hsame]

theorem emergency_step_fst (i : Nat) (se : PlayState × List RxEffect) :
    (emergency_step i se).1.has_current_sender = se.1.has_current_sender ∧
    (emergency_step i se).1.current_sender = se.1.current_sender ∧
    (emergency_step i se).1.current_rx_priority = se.1.current_rx_priority ∧
    (emergency_step i se).1.sequence_initialized = se.1.sequence_initialized ∧
    (emergency_step i se).1.last_sequence = se.1.last_sequence ∧
    (emergency_step i se).1.audio_playing = se.1.audio_playing := by
  unfold emergency_step
  split_ifs <;> simp

theorem emergency_step_mem (i : Nat) (se : PlayState × List RxEffect) (x : RxEffect) :
    x ∈ (emergency_step i se).2 → x ∈ se.2 ∨ x = RxEffect.forceOverride := by
  unfold emergency_step
  split_ifs <;> simp_all

theorem emergency_step_mono (i : Nat) (se : PlayState × List RxEffect) (x : RxEffect) :
    x ∈ se.2 → x ∈ (emergency_step i se).2 := by
  unfold emergency_step
  split_ifs <;> simp_all

theorem sink_start_step_fst (b : Bool) (se : PlayState × List RxEffect) :
    (sink_start_step b se).1.has_current_sender = se.1.has_current_sender ∧
    (sink_start_step b se).1.current_sender = se.1.current_sender ∧
    (sink_start_step b se).1.current_rx_priority = se.1.current_rx_priority ∧
    (sink_start_step b se).1.sequence_initialized = se.1.sequence_initialized ∧
    (sink_start_step b se).1.last_sequence = se.1.last_sequence ∧
    (sink_start_step b se).1.emergency_override = se.1.emergency_override := by
  unfold sink_start_step
  split_ifs <;> simp

theorem sink_start_step_mem (b : Bool) (se : PlayState × List RxEffect) (x : RxEffect) :
    x ∈ (sink_start_step b se).2 → x ∈ se.2 ∨ x = RxEffect.sinkStart := by
  unfold sink_start_step
  split_ifs <;> simp_all

theorem sink_start_step_mono (b : Bool) (se : PlayState × List RxEffect) (x : RxEffect) :
    x ∈ se.2 → x ∈ (sink_start_step b se).2 := by
  unfold sink_start_step
  split_ifs <;> simp_all

theorem conceal_effects_nonpos (decode_ok : Bool) (gap : Int) (h : gap ≤ 0) :
    conceal_effects decode_ok gap = [] := by
  unfold conceal_effects
  split_ifs with h1 h2 <;> first | rfl | omega

theorem conceal_effects_mem (decode_ok : Bool) (gap : Int) (x : RxEffect)
    (hx : x ∈ conceal_effects decode_ok gap) :
    x = RxEffect.decodeFec ∨ x = RxEffect.decodePlc ∨ x = RxEffect.sinkWrite := by
  unfold conceal_effects at hx
  split_ifs at hx <;>
    simp_all [List.mem_flatten, List.mem_replicate] <;> tauto

theorem preempt_or_acquire_diff (p : AudioPacket) (s : PlayState)
    (hs : s.has_current_sender = true) (hdiff : p.device_id ≠ s.current_sender) :
    preempt_or_acquire p s =
      ({ s with
          audio_playing := false
          emergency_override := false
          current_sender := p.device_id
          current_rx_priority := clampPriority p.priority
          sequence_initialized := false },
        (if s.audio_playing then [RxEffect.sinkStop] else []) ++
        (if s.emergency_override then [RxEffect.restoreOverride] else []) ++
        [RxEffect.resetDecoder]) := by
  simp [preempt_or_acquire, hs, hdiff]

theorem preempt_or_acquire_mem (p : AudioPacket) (s : PlayState) (x : RxEffect)
    (hx : x ∈ (preempt_or_acquire p s).2) :
    x = RxEffect.sinkStop ∨ x = RxEffect.restoreOverride ∨ x = RxEffect.resetDecoder := by
  unfold preempt_or_acquire at hx
  split_ifs at hx <;> simp_all <;> tauto

theorem emergency_step_ne2 (i : Nat) (se : PlayState × List RxEffect) (h : i ≠ 2) :
    emergency_step i se = se := by
  simp [emergency_step, h]


theorem process_fields_eq (decode_ok : Bool) (p : AudioPacket) (s : PlayState)
    (h : ¬(s.has_current_sender = true ∧ p.device_id ≠ s.current_sender ∧
        ¬(clampPriority p.priority > s.current_rx_priority))) :
    (process_rx_packet decode_ok p s).1.current_sender =
      (emergency_step (clampPriority p.priority)
        (preempt_or_acquire p s)).1.current_sender ∧
    (process_rx_packet decode_ok p s).1.current_rx_priority =
      (emergency_step (clampPriority p.priority)
        (preempt_or_acquire p s)).1.current_rx_priority ∧
    (process_rx_packet decode_ok p s).1.has_current_sender =
      (emergency_step (clampPriority p.priority)
        (preempt_or_acquire p s)).1.has_current_sender := by
  unfold process_rx_packet
  rw [if_neg h]
  set E := emergency_step (clampPriority p.priority) (preempt_or_acquire p s) with hE
  obtain ⟨hS1, hS2, hS3, hS4, hS5, hS6⟩ := sink_start_step_fst (decide (p.opus_len < 10)) E
  by_cases h1 : p.opus_len = 0 ∨ p.opus_len > MAX_PACKET_SIZE - HEADER_LENGTH
  · rw [if_pos h1]; exact ⟨rfl, rfl, rfl⟩
  rw [if_neg h1]
  by_cases h2 : p.opus_len < 10 ∧ E.1.has_current_sender = false
  · rw [if_pos h2]; exact ⟨rfl, rfl, rfl⟩
  rw [if_neg h2]
  by_cases h3 : p.opus_len < 10 ∧ E.1.has_current_sender = true ∧
      p.device_id ≠ E.1.current_sender
  · rw [if_pos h3]; exact ⟨rfl, rfl, rfl⟩
  rw [if_neg h3]
  exact ⟨hS2, hS3, hS1⟩

theorem process_effects_mono (decode_ok : Bool) (p : AudioPacket) (s : PlayState)
    (h : ¬(s.has_current_sender = true ∧ p.device_id ≠ s.current_sender ∧
        ¬(clampPriority p.priority > s.current_rx_priority)))
    (x : RxEffect)
    (hx : x ∈ (emergency_step (clampPriority p.priority) (preempt_or_acquire p s)).2) :
    x ∈ (process_rx_packet decode_ok p s).2 := by
  unfold process_rx_packet
  rw [if_neg h]
  set E := emergency_step (clampPriority p.priority) (preempt_or_acquire p s) with hE
  have hmono := sink_start_step_mono (decide (p.opus_len < 10)) E x hx
  by_cases h1 : p.opus_len = 0 ∨ p.opus_len > MAX_PACKET_SIZE - HEADER_LENGTH
  · rw [if_pos h1]; exact hx
  rw [if_neg h1]
  by_cases h2 : p.opus_len < 10 ∧ E.1.has_current_sender = false
  · rw [if_pos h2]; exact hx
  rw [if_neg h2]
  by_cases h3 : p.opus_len < 10 ∧ E.1.has_current_sender = true ∧
      p.device_id ≠ E.1.current_sender
  · rw [if_pos h3]; exact hx
  rw [if_neg h3]
  simp only [List.append_assoc, List.mem_append]
  exact Or.inl hmono

set_option maxHeartbeats 2000000 in
theorem process_effects_mem (decode_ok : Bool) (p : AudioPacket) (s : PlayState)
    (h : ¬(s.has_current_sender = true ∧ p.device_id ≠ s.current_sender ∧
        ¬(clampPriority p.priority > s.current_rx_priority)))
    (x : RxEffect)
    (hx : x ∈ (process_rx_packet decode_ok p s).2) :
    x ∈ (emergency_step (clampPriority p.priority) (preempt_or_acquire p s)).2 ∨
      x = RxEffect.sinkStart ∨ x = RxEffect.decodeFec ∨ x = RxEffect.decodePlc ∨
      x = RxEffect.decodeNormal ∨ x = RxEffect.sinkWrite := by
  unfold process_rx_packet at hx
  rw [if_neg h] at hx
  set E := emergency_step (clampPriority p.priority) (preempt_or_acquire p s) with hE
  by_cases h1 : p.opus_len = 0 ∨ p.opus_len > MAX_PACKET_SIZE - HEADER_LENGTH
  · rw [if_pos h1] at hx; exact Or.inl hx
  rw [if_neg h1] at hx
  by_cases h2 : p.opus_len < 10 ∧ E.1.has_current_sender = false
  · rw [if_pos h2] at hx; exact Or.inl hx
  rw [if_neg h2] at hx
  by_cases h3 : p.opus_len < 10 ∧ E.1.has_current_sender = true ∧
      p.device_id ≠ E.1.current_sender
  · rw [if_pos h3] at hx; exact Or.inl hx
  rw [if_neg h3] at hx
  simp only [List.append_assoc, List.mem_append, List.mem_singleton] at hx
  rcases hx with hx | hx | hx
  · rcases sink_start_step_mem _ _ _ hx with hx2 | hx2
    · exact Or.inl hx2
    · exact Or.inr (Or.inl hx2)
  · split_ifs at hx
    · have := conceal_effects_mem decode_ok _ x hx
      tauto
    · simp at hx
  · split_ifs at hx <;> simp_all

/-- C1 counterexample: with the active sender's stream at last_sequence = 5, a
same-sender packet with sequence 6 has gap 6 - 5 - 1 = 0, yet process_rx_packet
does NOT discard it: the packet is decoded, its samples are written to the
sink, and last_sequence advances to 6 — refuting the claim that a zero-or-
negative-gap packet is dropped as a duplicate/reorder with last_sequence
unchanged.  (Gap 0 is in fact the in-order case under the code's gap
formula.) -/
theorem gap_zero_discard_counterexample :
    seqGap 6 5 ≤ 0 ∧
    (process_rx_packet true ⟨7, 6, 0, 50⟩ ⟨true, 7, 0, true, 5, true, false⟩).1.last_sequence = 6 ∧
    RxEffect.decodeNormal ∈
      (process_rx_packet true ⟨7, 6, 0, 50⟩ ⟨true, 7, 0, true, 5, true, false⟩).2 ∧
    RxEffect.sinkWrite ∈
      (process_rx_packet true ⟨7, 6, 0, 50⟩ ⟨true, 7, 0, true, 5, true, false⟩).2 := by
  decide

/-- C1 amended: for an accepted same-sender packet whose gap
s - last_sequence - 1 (computed in uint32/int32 arithmetic) is zero or
negative, the play task skips concealment only — no decode_fec and no
decode_plc call is made — but the packet itself is still decoded normally,
its samples are written to the sink, and last_sequence is updated to s. -/
theorem gap_nonpositive_no_concealment (p : AudioPacket) (s : PlayState)
    (hs : s.has_current_sender = true)
    (hsame : p.device_id = s.current_sender)
    (hinit : s.sequence_initialized = true)
    (hlen1 : p.opus_len ≠ 0)
    (hlen2 : p.opus_len ≤ MAX_PACKET_SIZE - HEADER_LENGTH)
    (hgap : seqGap (u32 p.sequence) s.last_sequence ≤ 0) :
    (process_rx_packet true p s).1.last_sequence = u32 p.sequence ∧
    (process_rx_packet true p s).1.sequence_initialized = true ∧
    RxEffect.decodeFec ∉ (process_rx_packet true p s).2 ∧
    RxEffect.decodePlc ∉ (process_rx_packet true p s).2 ∧
    RxEffect.decodeNormal ∈ (process_rx_packet true p s).2 ∧
    RxEffect.sinkWrite ∈ (process_rx_packet true p s).2 := by
  have hdis : ¬(s.has_current_sender = true ∧ p.device_id ≠ s.current_sender ∧
      ¬(clampPriority p.priority > s.current_rx_priority)) := by
    intro h'
    exact h'.2.1 hsame
  have hpre : preempt_or_acquire p s = (s, []) := preempt_or_acquire_same p s hs hsame
  unfold process_rx_packet
  rw [if_neg hdis, hpre]
  obtain ⟨hE1, hE2, hE3, hE4, hE5, hE6⟩ :=
    emergency_step_fst (clampPriority p.priority) (s, [])
  set E := emergency_step (clampPriority p.priority) (s, []) with hEdef
  obtain ⟨hS1, hS2, hS3, hS4, hS5, hS6⟩ := sink_start_step_fst (decide (p.opus_len < 10)) E
  set S3 := sink_start_step (decide (p.opus_len < 10)) E with hSdef
  have h1 : ¬(p.opus_len = 0 ∨ p.opus_len > MAX_PACKET_SIZE - HEADER_LENGTH) := by
    push_neg
    exact ⟨hlen1, hlen2⟩
  rw [if_neg h1]
  have h2 : ¬(p.opus_len < 10 ∧ E.1.has_current_sender = false) := by
    simp [hE1, hs]
  rw [if_neg h2]
  have h3 : ¬(p.opus_len < 10 ∧ E.1.has_current_sender = true ∧
      p.device_id ≠ E.1.current_sender) := by
    intro h'
    exact h'.2.2 (by rw [hE2]; exact hsame)
  rw [if_neg h3]
  have hseqi : S3.1.sequence_initialized = true := by rw [hS4, hE4]; exact hinit
  have hlast : S3.1.last_sequence = s.last_sequence := by rw [hS5, hE5]
  simp only [← hSdef]
  rw [if_pos hseqi, hlast, conceal_effects_nonpos true _ hgap]
  have hnofec : RxEffect.decodeFec ∉ S3.2 := by
    intro hmem
    rcases sink_start_step_mem _ _ _ hmem with h' | h'
    · rcases emergency_step_mem _ _ _ h' with h'' | h'' <;> simp_all
    · simp_all
  have hnoplc : RxEffect.decodePlc ∉ S3.2 := by
    intro hmem
    rcases sink_start_step_mem _ _ _ hmem with h' | h'
    · rcases emergency_step_mem _ _ _ h' with h'' | h'' <;> simp_all
    · simp_all
  simp_all [List.mem_append]

/-- C1 witness: a duplicate same-sender packet (sequence 6 arriving again when
last_sequence is already 6, so the gap is -1) is still decoded and written
out, with last_sequence left at the same value 6. -/
theorem gap_nonpositive_no_concealment_witness :
    (process_rx_packet true ⟨7, 6, 0, 50⟩ ⟨true, 7, 0, true, 6, true, false⟩).1.last_sequence =
      u32 6 ∧
    (process_rx_packet true ⟨7, 6, 0, 50⟩
        ⟨true, 7, 0, true, 6, true, false⟩).1.sequence_initialized = true ∧
    RxEffect.decodeFec ∉
      (process_rx_packet true ⟨7, 6, 0, 50⟩ ⟨true, 7, 0, true, 6, true, false⟩).2 ∧
    RxEffect.decodePlc ∉
      (process_rx_packet true ⟨7, 6, 0, 50⟩ ⟨true, 7, 0, true, 6, true, false⟩).2 ∧
    RxEffect.decodeNormal ∈
      (process_rx_packet true ⟨7, 6, 0, 50⟩ ⟨true, 7, 0, true, 6, true, false⟩).2 ∧
    RxEffect.sinkWrite ∈
      (process_rx_packet true ⟨7, 6, 0, 50⟩ ⟨true, 7, 0, true, 6, true, false⟩).2 :=
  gap_nonpositive_no_concealment ⟨7, 6, 0, 50⟩ ⟨true, 7, 0, true, 6, true, false⟩
    rfl rfl rfl (by decide) (by decide) (by decide)

/-- C2: evaluation of process_rx_packet at the failing input — a 5-byte
(silence) payload from a foreign sender arriving with no ActiveSender.  The
code acquires the channel for the silence frame: has_current_sender becomes
true, the sender and its priority are adopted, the decoder is reset and the
packet is decoded — contradicting both the claim and the code's own comment
"Silence from unknown sender: don't acquire channel" (that guard is tested
only after the acquisition block has already run, when has_current_sender is
already true). -/
theorem silence_acquires_channel_code_eval :
    (process_rx_packet true ⟨3, 100, 1, 5⟩
        ⟨false, 0, 0, false, 0, false, false⟩).1.has_current_sender = true ∧
    (process_rx_packet true ⟨3, 100, 1, 5⟩
        ⟨false, 0, 0, false, 0, false, false⟩).1.current_sender = 3 ∧
    (process_rx_packet true ⟨3, 100, 1, 5⟩
        ⟨false, 0, 0, false, 0, false, false⟩).1.current_rx_priority = 1 ∧
    RxEffect.resetDecoder ∈
      (process_rx_packet true ⟨3, 100, 1, 5⟩ ⟨false, 0, 0, false, 0, false, false⟩).2 ∧
    RxEffect.decodeNormal ∈
      (process_rx_packet true ⟨3, 100, 1, 5⟩ ⟨false, 0, 0, false, 0, false, false⟩).2 := by
  decide

/-- C3 counterexample: a concrete higher-priority preemption (an Emergency
packet from sender 9 preempting Normal-priority sender 4 while the sink is
playing) in which the play task performs the stop/adopt/reset steps but never
flushes the RxQueue — xQueueReset is not called from process_rx_packet —
refuting the claim that preemption "flushes the RxQueue". -/
theorem preemption_no_queue_flush_counterexample :
    clampPriority 2 > 0 ∧
    (process_rx_packet true ⟨9, 500, 2, 60⟩
        ⟨true, 4, 0, true, 499, true, false⟩).1.current_sender = 9 ∧
    (process_rx_packet true ⟨9, 500, 2, 60⟩
        ⟨true, 4, 0, true, 499, true, false⟩).1.current_rx_priority = 2 ∧
    RxEffect.sinkStop ∈
      (process_rx_packet true ⟨9, 500, 2, 60⟩ ⟨true, 4, 0, true, 499, true, false⟩).2 ∧
    RxEffect.resetDecoder ∈
      (process_rx_packet true ⟨9, 500, 2, 60⟩ ⟨true, 4, 0, true, 499, true, false⟩).2 ∧
    RxEffect.flushQueue ∉
      (process_rx_packet true ⟨9, 500, 2, 60⟩ ⟨true, 4, 0, true, 499, true, false⟩).2 := by
  decide

/-- C3 amended: when a packet from a different sender with strictly higher
clamped priority arrives, the play task stops the sink if it was playing,
restores the emergency override if one was active, resets the decoder and
adopts the new sender and its clamped priority as ActiveSender — but it does
NOT flush the RxQueue (xQueueReset on the RxQueue is issued only by the PTT
button handler and the fallback beep, never by process_rx_packet). -/
theorem preemption_behaviour (dec : Bool) (p : AudioPacket) (s : PlayState)
    (hs : s.has_current_sender = true)
    (hdiff : p.device_id ≠ s.current_sender)
    (hpri : clampPriority p.priority > s.current_rx_priority) :
    (process_rx_packet dec p s).1.current_sender = p.device_id ∧
    (process_rx_packet dec p s).1.current_rx_priority = clampPriority p.priority ∧
    (process_rx_packet dec p s).1.has_current_sender = true ∧
    RxEffect.resetDecoder ∈ (process_rx_packet dec p s).2 ∧
    (s.audio_playing = true → RxEffect.sinkStop ∈ (process_rx_packet dec p s).2) ∧
    (s.emergency_override = true → RxEffect.restoreOverride ∈ (process_rx_packet dec p s).2) ∧
    RxEffect.flushQueue ∉ (process_rx_packet dec p s).2 := by
  have hdis : ¬(s.has_current_sender = true ∧ p.device_id ≠ s.current_sender ∧
      ¬(clampPriority p.priority > s.current_rx_priority)) := by
    intro h'
    exact h'.2.2 hpri
  have hpre := preempt_or_acquire_diff p s hs hdiff
  obtain ⟨hF1, hF2, hF3⟩ := process_fields_eq dec p s hdis
  obtain ⟨hE1, hE2, hE3, _, _, _⟩ :=
    emergency_step_fst (clampPriority p.priority) (preempt_or_acquire p s)
  have hps : (preempt_or_acquire p s).1.current_sender = p.device_id := by rw [hpre]
  have hpp : (preempt_or_acquire p s).1.current_rx_priority = clampPriority p.priority := by
    rw [hpre]
  have hph : (preempt_or_acquire p s).1.has_current_sender = true := by
    rw [hpre]; exact hs
  refine ⟨hF1.trans (hE2.trans hps), hF2.trans (hE3.trans hpp), hF3.trans (hE1.trans hph),
      ?_, ?_, ?_, ?_⟩
  · have hr : RxEffect.resetDecoder ∈ (preempt_or_acquire p s).2 := by
      rw [hpre]; simp
    exact process_effects_mono dec p s hdis _
      (emergency_step_mono (clampPriority p.priority) (preempt_or_acquire p s) _ hr)
  · intro hap
    have hr : RxEffect.sinkStop ∈ (preempt_or_acquire p s).2 := by
      rw [hpre]; simp [hap]
    exact process_effects_mono dec p s hdis _
      (emergency_step_mono (clampPriority p.priority) (preempt_or_acquire p s) _ hr)
  · intro hov
    have hr : RxEffect.restoreOverride ∈ (preempt_or_acquire p s).2 := by
      rw [hpre]; simp [hov, List.mem_append]
    exact process_effects_mono dec p s hdis _
      (emergency_step_mono (clampPriority p.priority) (preempt_or_acquire p s) _ hr)
  · intro hmem
    rcases process_effects_mem dec p s hdis _ hmem with h' | h' | h' | h' | h' | h'
    · rcases emergency_step_mem _ _ _ h' with h'' | h''
      · rcases preempt_or_acquire_mem p s _ h'' with h3 | h3 | h3 <;> simp_all
      · simp_all
    all_goals simp_all

/-- C3 witness: preemption evaluated with High priority over Normal, with the
sink playing and an emergency override active. -/
theorem preemption_behaviour_witness :
    (process_rx_packet true ⟨2, 10, 1, 30⟩ ⟨true, 1, 0, true, 9, true, true⟩).1.current_sender =
      2 ∧
    (process_rx_packet true ⟨2, 10, 1, 30⟩
        ⟨true, 1, 0, true, 9, true, true⟩).1.current_rx_priority = clampPriority 1 ∧
    (process_rx_packet true ⟨2, 10, 1, 30⟩
        ⟨true, 1, 0, true, 9, true, true⟩).1.has_current_sender = true ∧
    RxEffect.resetDecoder ∈
      (process_rx_packet true ⟨2, 10, 1, 30⟩ ⟨true, 1, 0, true, 9, true, true⟩).2 ∧
    ((true : Bool) = true → RxEffect.sinkStop ∈
      (process_rx_packet true ⟨2, 10, 1, 30⟩ ⟨true, 1, 0, true, 9, true, true⟩).2) ∧
    ((true : Bool) = true → RxEffect.restoreOverride ∈
      (process_rx_packet true ⟨2, 10, 1, 30⟩ ⟨true, 1, 0, true, 9, true, true⟩).2) ∧
    RxEffect.flushQueue ∉
      (process_rx_packet true ⟨2, 10, 1, 30⟩ ⟨true, 1, 0, true, 9, true, true⟩).2 :=
  preemption_behaviour true ⟨2, 10, 1, 30⟩ ⟨true, 1, 0, true, 9, true, true⟩
    rfl (by decide) (by decide)

/-- C10: a packet whose priority byte exceeds 2 is clamped to Normal (0)
before any policy decision; consequently it is never enqueued when DND is
enabled (the RxQueue is left unchanged by on_audio_received), it can never
preempt an existing ActiveSender from a different device (process_rx_packet
discards it with no state change and no effects), and it never triggers the
emergency volume override (audio_output_force_unmute_max_volume is never
called while processing it). -/
theorem priority_clamp_consequences (p : AudioPacket) (env : RxEnv)
    (srx : RxTaskState) (dec : Bool) (s : PlayState)
    (hp : p.priority > 2) :
    clampPriority p.priority = 0 ∧
    (env.dnd_enabled = true → (on_audio_received env p srx).rx_queue = srx.rx_queue) ∧
    (s.has_current_sender = true → p.device_id ≠ s.current_sender →
      process_rx_packet dec p s = (s, [])) ∧
    RxEffect.forceOverride ∉ (process_rx_packet dec p s).2 := by
  have hcl : clampPriority p.priority = 0 := by simp [clampPriority, hp]
  refine ⟨hcl, ?_, ?_, ?_⟩
  · intro hdnd
    unfold on_audio_received
    split_ifs <;> simp_all
  · intro hcs hdiff
    unfold process_rx_packet
    rw [if_pos ⟨hcs, hdiff, by simp [hcl]⟩]
  · by_cases hdis : s.has_current_sender = true ∧ p.device_id ≠ s.current_sender ∧
        ¬(clampPriority p.priority > s.current_rx_priority)
    · intro hmem
      unfold process_rx_packet at hmem
      rw [if_pos hdis] at hmem
      simp at hmem
    · intro hmem
      rcases process_effects_mem dec p s hdis _ hmem with h' | h' | h' | h' | h' | h'
      · rw [hcl] at h'
        rw [emergency_step_ne2 0 (preempt_or_acquire p s) (by decide)] at h'
        rcases preempt_or_acquire_mem p s _ h' with h3 | h3 | h3 <;> simp_all
      all_goals simp_all

/-- C10 witness: the consequences evaluated for a packet with priority byte 7
(DND enabled, an ActiveSender of Normal priority from another device, the
sink playing). -/
theorem priority_clamp_consequences_witness :
    clampPriority 7 = 0 ∧
    ((true : Bool) = true →
      (on_audio_received ⟨0, false, true⟩ ⟨5, 0, 7, 50⟩ ⟨[], 0, 0⟩).rx_queue =
        ([] : List AudioPacket)) ∧
    ((true : Bool) = true → (5 : Nat) ≠ 1 →
      process_rx_packet true ⟨5, 0, 7, 50⟩ ⟨true, 1, 0, true, 0, true, false⟩ =
        (⟨true, 1, 0, true, 0, true, false⟩, [])) ∧
    RxEffect.forceOverride ∉
      (process_rx_packet true ⟨5, 0, 7, 50⟩ ⟨true, 1, 0, true, 0, true, false⟩).2 :=
  priority_clamp_consequences ⟨5, 0, 7, 50⟩ ⟨0, false, true⟩ ⟨[], 0, 0⟩ true
    ⟨true, 1, 0, true, 0, true, false⟩ (by decide)

/- ===================== main.c : audio_tx_task sequence production ===================== -/

/-- main.c line 46: static uint32_t tx_sequence = 0.  Each of the three send
sites of audio_tx_task (lead-in silence, trail-out silence, voice frames)
executes packet->sequence = htonl(tx_sequence++); the uint32 increment wraps
modulo 2^32.  txSeqState n is the value of tx_sequence after n packets have
been produced since boot; it is never reset anywhere in main.c. -/
def txSeqState : Nat → Nat
  | 0 => 0
  | n + 1 => (txSeqState n + 1) % UINT32_MOD

/-- The sequence number carried by the n-th audio packet this node produces
(0-indexed): the value of tx_sequence read by the post-increment. -/
def producedSeq (n : Nat) : Nat := txSeqState n

theorem txSeqState_eq (n : Nat) : txSeqState n = n % UINT32_MOD := by
  induction n with
  | zero => rfl
  | succ k ih =>
    rw [txSeqState, ih]
    simp only [UINT32_MOD]
    omega

/-- C4 counterexample: the sequence counter is a uint32 and wraps: packet
number 2^32 carries sequence 0, which is not strictly greater than the
sequence 2^32 - 1 carried by the packet produced just before it — refuting
"every packet carries a strictly greater sequence than the previous one
across the entire uptime". -/
theorem tx_sequence_wrap_counterexample :
    producedSeq (2 ^ 32 - 1) = 2 ^ 32 - 1 ∧
    producedSeq (2 ^ 32) = 0 ∧
    ¬ producedSeq (2 ^ 32 - 1) < producedSeq (2 ^ 32) := by
  have h1 : producedSeq (2 ^ 32 - 1) = 2 ^ 32 - 1 := by
    rw [producedSeq, txSeqState_eq]
    norm_num [UINT32_MOD]
  have h2 : producedSeq (2 ^ 32) = 0 := by
    rw [producedSeq, txSeqState_eq]
    norm_num [UINT32_MOD]
  refine ⟨h1, h2, ?_⟩
  rw [h1, h2]
  norm_num

/-- C4 amended: the sequence counter starts at 0 at boot and is never reset;
the n-th produced packet carries sequence n mod 2^32, so sequences are
strictly increasing for as long as fewer than 2^32 packets have been produced
(at one packet per 20 ms this is over 2.7 years of continuous transmission);
the counter then wraps. -/
theorem tx_sequence_strict_mono (n : Nat) (h : n + 1 < UINT32_MOD) :
    producedSeq 0 = 0 ∧ producedSeq n < producedSeq (n + 1) := by
  refine ⟨rfl, ?_⟩
  rw [producedSeq, producedSeq, txSeqState_eq, txSeqState_eq,
    Nat.mod_eq_of_lt (by omega), Nat.mod_eq_of_lt h]
  omega

/-- C4 witness: the first two produced packets carry sequences 0 and 1. -/
theorem tx_sequence_strict_mono_witness :
    producedSeq 0 = 0 ∧ producedSeq 0 < producedSeq 1 :=
  tx_sequence_strict_mono 0 (by norm_num [UINT32_MOD])

/- ===================== aec.c : reference stream, mic accumulator, output ring ===================== -/

/-- aec.c AEC_CHUNK_SAMPLES = 512. -/
def AEC_CHUNK_SAMPLES : Nat := 512

/-- aec.c REF_STREAM_BYTES / sizeof(int16_t): the ref_stream StreamBuffer
capacity in samples (512 * 4 = 2048, i.e. 128 ms). -/
def REF_STREAM_CAPACITY : Nat := AEC_CHUNK_SAMPLES * 4

/-- aec.c AEC_REF_DELAY_SAMPLES = SAMPLE_RATE * AEC_REF_DELAY_MS / 1000
= 16000 * 80 / 1000 = 1280. -/
def AEC_REF_DELAY_SAMPLES : Nat := 16000 * 80 / 1000

/-- Observable AEC bridge state: the ref_stream StreamBuffer contents (oldest
first), the mic_fill valid samples of mic_accum[], and the out_count queued
samples of out_ring[] (the ring indices out_read/out_write only serve to
delimit this queue). -/
structure AecState where
  ref_stream : List Int
  mic_accum : List Int
  out_ring : List Int
deriving DecidableEq, Repr

/-- FreeRTOS xStreamBufferSend with zero timeout, as used by aec.c: append as
many samples as fit in the remaining capacity and drop the rest
(drop-newest). -/
def refStreamSend (st : List Int) (xs : List Int) : List Int :=
  st ++ xs.take (REF_STREAM_CAPACITY - st.length)

/-- aec.c aec_reset: clear the mic accumulator and the output ring
(mic_fill = 0, out_write = out_read = out_count = 0); the reference stream is
intentionally NOT drained (the comment: residual room echo must remain
cancellable). -/
def aec_reset (s : AecState) : AecState :=
  { s with mic_accum := [], out_ring := [] }

/-- The drain loop of aec_flush_reference: xStreamBufferReceive of up to 64
samples at a time, repeated until it returns 0 bytes. -/
def drainLoop (st : List Int) : List Int :=
  if h : st = [] then st
  else drainLoop (st.drop 64)
termination_by st.length
decreasing_by
  have hlen : st.length ≠ 0 := by
    intro hl
    exact h (List.length_eq_zero.mp hl)
  simp only [List.length_drop]
  omega

/-- The re-prime loop of aec_flush_reference: push AEC_REF_DELAY_SAMPLES zero
samples onto the (just drained) reference stream in chunks of at most 64. -/
def primeLoop (remaining : Nat) (st : List Int) : List Int :=
  if remaining = 0 then st
  else primeLoop (remaining - min remaining 64)
    (refStreamSend st (List.replicate (min remaining 64) 0))
termination_by remaining
decreasing_by
  have h1 : 1 ≤ min remaining 64 := le_min (by omega) (by omega)
  have h2 : min remaining 64 ≤ remaining := min_le_left _ _
  omega

/-- aec.c aec_flush_reference: drain everything from ref_stream, clear the
mic accumulator and output ring, then re-prime the reference with the
standard silence pre-delay. -/
def aec_flush_reference (s : AecState) : AecState :=
  { ref_stream := primeLoop AEC_REF_DELAY_SAMPLES (drainLoop s.ref_stream)
    mic_accum := []
    out_ring := [] }

theorem drainLoop_eq_nil (st : List Int) : drainLoop st = [] := by
  have H : ∀ n (l : List Int), l.length ≤ n → drainLoop l = [] := by
    intro n
    induction n with
    | zero =>
      intro l hl
      have hnil : l = [] := List.length_eq_zero.mp (Nat.le_zero.mp hl)
      subst hnil
      rw [drainLoop]
      simp
    | succ k ih =>
      intro l hl
      rw [drainLoop]
      split_ifs with h
      · exact h
      · refine ih _ ?_
        have hlen : l.length ≠ 0 := fun h0 => h (List.length_eq_zero.mp h0)
        simp only [List.length_drop]
        omega
  exact H st.length st le_rfl

theorem primeLoop_eq (r : Nat) (st : List Int)
    (h : st.length + r ≤ REF_STREAM_CAPACITY) :
    primeLoop r st = st ++ List.replicate r 0 := by
  induction r using Nat.strong_induction_on generalizing st with
  | _ r ih =>
    rw [primeLoop]
    split_ifs with h0
    · subst h0; simp
    · have hch1 : 1 ≤ min r 64 := le_min (by omega) (by omega)
      have hch2 : min r 64 ≤ r := min_le_left _ _
      have hsend : refStreamSend st (List.replicate (min r 64) 0) =
          st ++ List.replicate (min r 64) 0 := by
        unfold refStreamSend
        rw [List.take_of_length_le (by simp; omega)]
      rw [hsend, ih (r - min r 64) (by omega) _ (by simp; omega),
        List.append_assoc, ← List.replicate_add]
      have : min r 64 + (r - min r 64) = r := by omega
      rw [this]

/-- C7: immediately after aec_flush_reference the reference FIFO contains
exactly the standard acoustic pre-delay count (1280 samples = 80 ms) of zero
samples and nothing else, and the mic accumulator and the cleaned-output ring
are empty. -/
theorem aec_flush_reference_spec (s : AecState) :
    (aec_flush_reference s).ref_stream = List.replicate AEC_REF_DELAY_SAMPLES 0 ∧
    (aec_flush_reference s).mic_accum = [] ∧
    (aec_flush_reference s).out_ring = [] := by
  unfold aec_flush_reference
  rw [drainLoop_eq_nil, primeLoop_eq _ _ (by norm_num [AEC_REF_DELAY_SAMPLES,
    REF_STREAM_CAPACITY, AEC_CHUNK_SAMPLES])]
  exact ⟨by simp, rfl, rfl⟩

/-- C8: aec_reset clears exactly the mic accumulator and the cleaned-output
ring (both become empty) and leaves the contents of the reference stream
unchanged. -/
theorem aec_reset_spec (s : AecState) :
    (aec_reset s).ref_stream = s.ref_stream ∧
    (aec_reset s).mic_accum = [] ∧
    (aec_reset s).out_ring = [] :=
  ⟨rfl, rfl, rfl⟩

/- ===================== agc.c ===================== -/

/-- agc.c AGC_TARGET_LEVEL = 16384 (-6 dBFS). -/
def AGC_TARGET_LEVEL : Nat := 16384

/-- agc.c AGC_WINDOW_FRAMES = 10 (200 ms). -/
def AGC_WINDOW_FRAMES : Nat := 10

/-- agc.c AGC_MIN_GAIN = 1.0. -/
def AGC_MIN_GAIN : ℚ := 1

/-- agc.c AGC_MAX_GAIN = 10.0. -/
def AGC_MAX_GAIN : ℚ := 10

/-- agc.c AGC_ATTACK_COEFF = 0.1. -/
def AGC_ATTACK_COEFF : ℚ := 1 / 10

/-- agc.c AGC_RELEASE_COEFF = 0.01. -/
def AGC_RELEASE_COEFF : ℚ := 1 / 100

/-- agc.c AGC_SILENCE_THRESHOLD = 64. -/
def AGC_SILENCE_THRESHOLD : Int := 64

/-- agc.c s_agc: the current gain (C float, modelled over ℚ), the ring of the
last AGC_WINDOW_FRAMES per-frame peaks, its write index, and the initialized
flag. -/
structure AgcState where
  current_gain : ℚ
  peak_history : List Int
  history_index : Nat
  initialized : Bool
deriving DecidableEq, Repr

/-- agc.c agc_init (and agc_reset): gain 1.0, zeroed history. -/
def agc_init : AgcState :=
  { current_gain := 1
    peak_history := List.replicate AGC_WINDOW_FRAMES 0
    history_index := 0
    initialized := true }

/-- Step 1 of agc_process: peak absolute amplitude of the frame, with the C
code's INT16_MIN guard (the absolute value of -32768 is clamped to 32767). -/
def framePeak (samples : List Int) : Int :=
  samples.foldl (fun pk x =>
    let av := if x = -32768 then 32767 else if x < 0 then -x else x
    if av > pk then av else pk) 0

/-- Step 3 of agc_process: maximum peak across the window. -/
def windowPeak (hist : List Int) : Int :=
  hist.foldl (fun a b => if b > a then b else a) 0

/-- Clamp a gain to [AGC_MIN_GAIN, AGC_MAX_GAIN] as the C code does. -/
def clampGain (g : ℚ) : ℚ :=
  if g < AGC_MIN_GAIN then AGC_MIN_GAIN
  else if g > AGC_MAX_GAIN then AGC_MAX_GAIN
  else g

/-- Step 6 hard limiter of agc_process: clamp the scaled sample to the int16
range. -/
def limit16 (q : ℚ) : ℚ :=
  if q > 32767 then 32767 else if q < -32768 then -32768 else q

/-- The C cast (int16_t)gained on an already-limited float: truncation toward
zero. -/
def truncQ (q : ℚ) : Int :=
  if 0 ≤ q then ⌊q⌋ else -⌊-q⌋

/-- Window peak that results from inserting the current frame's peak into the
history ring (the value the gain decision of this agc_process call is based
on). -/
def windowPeakAfter (s : AgcState) (samples : List Int) : Int :=
  windowPeak (s.peak_history.set s.history_index (framePeak samples))

/-- agc.c agc_process.  The C function scales the samples in place; the model
returns the new state and the output frame.  The C float arithmetic on the
gain is modelled over ℚ (exact for the properties proved here: scaling a zero
sample and holding a gain fixed are exact in IEEE float as well). -/
def agc_process (s : AgcState) (samples : List Int) : AgcState × List Int :=
  if s.initialized = false ∨ samples = [] then (s, samples)
  else
    let fp := framePeak samples
    let hist := s.peak_history.set s.history_index fp
    let idx := (s.history_index + 1) % AGC_WINDOW_FRAMES
    let wp := windowPeak hist
    let target : ℚ :=
      if wp ≥ AGC_SILENCE_THRESHOLD then clampGain ((AGC_TARGET_LEVEL : ℚ) / (wp : ℚ))
      else s.current_gain
    let coeff := if target < s.current_gain then AGC_ATTACK_COEFF else AGC_RELEASE_COEFF
    let g := clampGain (s.current_gain + coeff * (target - s.current_gain))
    ({ current_gain := g
       peak_history := hist
       history_index := idx
       initialized := s.initialized },
      samples.map (fun x : Int => truncQ (limit16 ((x : ℚ) * g))))

/-- C9: a frame whose samples are all zero comes out all zero from
agc_process (silence in implies silence out, whatever the gain); and whenever
the sliding-window peak (including this frame's peak) is below the silence
threshold 64, the gain is held at its current value instead of being driven
toward maximum (given the invariant that the gain is within its clamp bounds,
which agc_init establishes and every call re-establishes). -/
theorem agc_silence_and_hold (s : AgcState) (xs : List Int) :
    ((∀ x ∈ xs, x = 0) → ∀ y ∈ (agc_process s xs).2, y = 0) ∧
    (AGC_MIN_GAIN ≤ s.current_gain → s.current_gain ≤ AGC_MAX_GAIN →
      windowPeakAfter s xs < AGC_SILENCE_THRESHOLD →
      (agc_process s xs).1.current_gain = s.current_gain) := by
  constructor
  · intro hz y hy
    unfold agc_process at hy
    split_ifs at hy with h0
    · exact hz y hy
    · simp only [List.mem_map] at hy
      obtain ⟨x, hx, rfl⟩ := hy
      rw [hz x hx]
      norm_num [limit16, truncQ]
  · intro hg1 hg2 hwp
    unfold windowPeakAfter at hwp
    unfold agc_process
    split_ifs with h0
    · rfl
    · have hcl : clampGain s.current_gain = s.current_gain := by
        unfold clampGain
        rw [if_neg (not_lt.mpr hg1), if_neg (not_lt.mpr hg2)]
      simp only [if_neg (not_le.mpr hwp), lt_irrefl, if_neg (lt_irrefl s.current_gain),
        sub_self, mul_zero, add_zero]
      exact hcl

/-- C9 witness: a zero frame through the freshly initialized AGC state comes
out zero and leaves the gain at 1.0. -/
theorem agc_silence_and_hold_witness :
    (∀ y ∈ (agc_process agc_init [0, 0, 0]).2, y = 0) ∧
    (agc_process agc_init [0, 0, 0]).1.current_gain = agc_init.current_gain :=
  ⟨(agc_silence_and_hold agc_init [0, 0, 0]).1 (by decide),
    (agc_silence_and_hold agc_init [0, 0, 0]).2 (by norm_num [AGC_MIN_GAIN, agc_init])
      (by norm_num [AGC_MAX_GAIN, agc_init]) (by decide)⟩
